import Mathlib

/-!
Verification of the tee-time webhook core logic (`src/main.py`).

The embedding translates the helper functions `generate_demo_times` and
`format_time`, together with the request handlers `check_tee_times` and
`book_tee_time`, into Lean. Conventions:

* Calendar dates are abstract ordinals (`Nat`); the Python code only ever
  compares dates for equality (`request_date.date() == now.date()`).
* The current wall-clock time `datetime.now(tz)` is passed explicitly as a
  `DateTime` value (date ordinal, hour, minute), as all uses of `now` in the
  translated functions read only `now.date()` and `now.hour` (plus the
  minute for the confirmation stamp).
* Course operating hours: the Python code stores `"HH:MM"` strings and keeps
  only the hour component (`int(s.split(':')[0])`); the embedding stores
  those hour components directly (`openHour`, `closeHour`).
* `format_time` in Python first parses its `"HH:MM"` argument into two
  integers; the embedding takes the already-parsed pair.
-/

namespace TeeTalk

/-- Course configuration: the fields of a `GOLF_COURSES` entry used by the
translated functions. `openHour`/`closeHour` are the hour components of
`course['hours']['open']` / `course['hours']['close']`. -/
structure Course where
  name : String
  openHour : Nat
  closeHour : Nat
deriving DecidableEq

/-- A wall-clock instant: calendar date as an abstract ordinal, plus hour
and minute of day. Stands for `datetime.now(tz)`. -/
structure DateTime where
  date : Nat
  hour : Nat
  minute : Nat
deriving DecidableEq

/-- Zero-padding to two digits, Python's `f"{n:02d}"` (for `n < 100`). -/
def two_digits (n : Nat) : String :=
  if n < 10 then "0" ++ toString n else toString n

/-- `format_time` (src/main.py lines 289-295): convert 24-hour to 12-hour
display form. The Python function receives `"HH:MM"` and parses it; here it
takes the parsed hour and minute. -/
def format_time (hour minute : Nat) : String :=
  let period := if hour < 12 then "AM" else "PM"
  let display_hour := if hour ≤ 12 then hour else hour - 12
  let display_hour := if display_hour = 0 then 12 else display_hour
  toString display_hour ++ ":" ++ two_digits minute ++ " " ++ period

/-- The 24-hour string `f"{hour:02d}:{minute:02d}"` built at line 280. -/
def time24 (hour minute : Nat) : String :=
  two_digits hour ++ ":" ++ two_digits minute

/-- One generated slot, the dict built at lines 281-285. The numeric
`timeHour`/`timeMinute` fields record the pair the strings are built from. -/
structure TimeSlot where
  timeHour : Nat
  timeMinute : Nat
  time : String
  display_time : String
  available_slots : Nat
deriving DecidableEq

/-- The slot dict appended at lines 281-285 for a given hour and minute. -/
def mkSlot (hour minute : Nat) : TimeSlot :=
  { timeHour := hour
    timeMinute := minute
    time := time24 hour minute
    display_time := format_time hour minute
    available_slots := 4 }

/-- Minutes since midnight of a slot's time of day. -/
def TimeSlot.minutesOfDay (s : TimeSlot) : Nat :=
  60 * s.timeHour + s.timeMinute

/-- The minute list iterated at line 279: `[0, 10, 20, 30, 40, 50]`. -/
def slot_minutes : List Nat := [0, 10, 20, 30, 40, 50]

/-- The `start`/`end` pair chosen by the preference branches
(src/main.py lines 267-275). -/
def start_end (course : Course) (date : Nat) (preference : String)
    (now : DateTime) : Nat × Nat :=
  if preference = "morning" then (course.openHour, 12)
  else if preference = "afternoon" then (12, 17)
  else if preference = "evening" then (17, course.closeHour)
  else ((if date = now.date then now.hour + 1 else course.openHour),
        course.closeHour)

/-- The inner double loop of lines 278-285 for `n` consecutive hours
starting at hour `a`: every hour paired with every minute of
`slot_minutes`. -/
def hours_block (a n : Nat) : List TimeSlot :=
  (List.range' a n).flatMap
    (fun hour => slot_minutes.map (fun minute => mkSlot hour minute))

/-- The double loop for `for hour in range(a, c)`: Python's `range(a, c)`
has `c - a` elements (empty when `c ≤ a`, matching truncated subtraction). -/
def grid (a c : Nat) : List TimeSlot :=
  hours_block a (c - a)

/-- The full `times` list built at lines 277-285, before the `[:5]`
truncation: hours run over `range(max(start, open_hour), min(end, close_hour))`. -/
def demo_times_all (course : Course) (date : Nat) (preference : String)
    (now : DateTime) : List TimeSlot :=
  grid (max (start_end course date preference now).1 course.openHour)
       (min (start_end course date preference now).2 course.closeHour)

/-- `generate_demo_times` (src/main.py lines 258-287): the `times` list
truncated to its first five entries (`return times[:5]`). -/
def generate_demo_times (course : Course) (date : Nat) (preference : String)
    (now : DateTime) : List TimeSlot :=
  (demo_times_all course date preference now).take 5

/-- The start of the generated slot range, in minutes since midnight:
`max(start, open_hour)` hours (the first hour the loop at line 278 visits). -/
def start_minutes (course : Course) (date : Nat) (preference : String)
    (now : DateTime) : Nat :=
  60 * max (start_end course date preference now).1 course.openHour

/-- Response body of `/check_tee_times` (the fields depending on the
availability computation). -/
structure CheckResponse where
  date : Nat
  available_times : List TimeSlot
  message : String
deriving DecidableEq

/-- `check_tee_times` (src/main.py lines 88-129) after course lookup:
generates demo times, returns the empty answer when there are none, and
otherwise the list truncated to five with a message built from the first
one or two display times. -/
def check_tee_times (course : Course) (date : Nat) (preference : String)
    (now : DateTime) : CheckResponse :=
  match generate_demo_times course date preference now with
  | [] =>
      { date := date
        available_times := []
        message := "No tee times available for that date" }
  | a :: b :: rest =>
      { date := date
        available_times := (a :: b :: rest).take 5
        message := "Next available times are " ++ a.display_time
          ++ " and " ++ b.display_time }
  | [a] =>
      { date := date
        available_times := [a].take 5
        message := "We have " ++ a.display_time ++ " available" }

/-- Input of `/book_tee_time`: the fields read at lines 153-157. The time
is stored as its parsed hour/minute pair (the Python code keeps the string
and parses it inside `format_time`). -/
structure BookingRequest where
  date : Nat
  timeHour : Nat
  timeMinute : Nat
  player_name : String
  phone_number : String
  number_of_players : Int
deriving DecidableEq

/-- Response body of `/book_tee_time` (lines 165-176). -/
structure BookingResponse where
  success : Bool
  confirmation_number : String
  date : Nat
  timeHour : Nat
  timeMinute : Nat
  display_time : String
  player_name : String
  phone_number : String
  number_of_players : Int
  course_name : String
  message : String
deriving DecidableEq

/-- `book_tee_time` (src/main.py lines 141-183) after course lookup: it
performs no validation of the request and unconditionally returns
`success: True`. The confirmation number is the course-name prefix plus a
compact timestamp (`'%y%m%d%H%M'`); the timestamp is modelled as the date
ordinal followed by `HHMM`. -/
def book_tee_time (course : Course) (req : BookingRequest)
    (now : DateTime) : BookingResponse :=
  let confirmation_number :=
    (course.name.take 2).toUpper ++ "-"
      ++ toString now.date ++ two_digits now.hour ++ two_digits now.minute
  let display_time := format_time req.timeHour req.timeMinute
  { success := true
    confirmation_number := confirmation_number
    date := req.date
    timeHour := req.timeHour
    timeMinute := req.timeMinute
    display_time := display_time
    player_name := req.player_name
    phone_number := req.phone_number
    number_of_players := req.number_of_players
    course_name := course.name
    message := "Tee time booked for " ++ req.player_name }

/-- Modelled from the spec: `round_up_to_slot(t, interval)`, rounding a
time-of-day (in minutes since midnight) up to the next multiple of the slot
interval, a time already on a slot boundary being kept as-is. No such
rounding exists anywhere in the source; the definition is used only to
state claims about it. -/
def round_up_to_slot (t interval : Nat) : Nat :=
  if t % interval = 0 then t else t + (interval - t % interval)

/-- Modelled from the spec: the 12-hour display mapping as the spec words
it — hour 0 displays as 12, hours 1-12 unchanged, hours 13-23 as hour minus
12, minutes zero-padded to two digits, suffix AM for hour < 12 and PM
otherwise. Compared against the source's `format_time`. -/
def spec_format_12h (hour minute : Nat) : String :=
  toString (if hour = 0 then 12 else if hour ≤ 12 then hour else hour - 12)
    ++ ":" ++ two_digits minute ++ " "
    ++ (if hour < 12 then "AM" else "PM")

/-- The configured demo course (hours 06:00-20:00). -/
def cedarRidge : Course := ⟨"Cedar Ridge Golf Club", 6, 20⟩

/-! ### Helper lemmas about the slot grid -/

lemma minutesOfDay_mkSlot (h m : Nat) :
    (mkSlot h m).minutesOfDay = 60 * h + m := rfl

lemma hours_block_succ (a n : Nat) :
    hours_block a (n + 1) =
      slot_minutes.map (fun minute => mkSlot a minute) ++ hours_block (a + 1) n := by
  rw [hours_block, List.range'_succ, List.flatMap_cons, hours_block]

lemma hours_block_length (a n : Nat) : (hours_block a n).length = 6 * n := by
  induction n generalizing a with
  | zero => rfl
  | succ m ih =>
    rw [hours_block_succ, List.length_append, ih]
    simp [slot_minutes]
    omega

lemma mem_hours_block {s : TimeSlot} {a n : Nat} (h : s ∈ hours_block a n) :
    ∃ hr m, a ≤ hr ∧ hr < a + n ∧ m ≤ 50 ∧ m % 10 = 0 ∧ s = mkSlot hr m := by
  rw [hours_block] at h
  obtain ⟨hr, hhr, hs⟩ := List.mem_flatMap.1 h
  obtain ⟨m, hm, rfl⟩ := List.mem_map.1 hs
  obtain ⟨i, hi, rfl⟩ := List.mem_range'.1 hhr
  have hm' : m = 0 ∨ m = 10 ∨ m = 20 ∨ m = 30 ∨ m = 40 ∨ m = 50 := by
    simpa [slot_minutes] using hm
  exact ⟨a + 1 * i, m, by omega, by omega, by omega, by omega, rfl⟩

lemma block_pairwise (a : Nat) :
    (slot_minutes.map (fun minute => mkSlot a minute)).Pairwise
      (fun s t => s.minutesOfDay < t.minutesOfDay) := by
  refine List.pairwise_map.2 ?_
  simp only [minutesOfDay_mkSlot]
  have h : slot_minutes.Pairwise (· < ·) := by decide
  exact h.imp (fun hlt => by omega)

lemma hours_block_pairwise (a n : Nat) :
    (hours_block a n).Pairwise (fun s t => s.minutesOfDay < t.minutesOfDay) := by
  induction n generalizing a with
  | zero => exact List.Pairwise.nil
  | succ m ih =>
    rw [hours_block_succ]
    refine List.pairwise_append.2 ⟨block_pairwise a, ih (a + 1), ?_⟩
    intro x hx y hy
    obtain ⟨mx, hmx, rfl⟩ := List.mem_map.1 hx
    obtain ⟨hr, my, hhr, _, hmy, _, rfl⟩ := mem_hours_block hy
    have hx' : mx = 0 ∨ mx = 10 ∨ mx = 20 ∨ mx = 30 ∨ mx = 40 ∨ mx = 50 := by
      simpa [slot_minutes] using hmx
    simp only [minutesOfDay_mkSlot]
    omega

lemma grid_pairwise (a c : Nat) :
    (grid a c).Pairwise (fun s t => s.minutesOfDay < t.minutesOfDay) :=
  hours_block_pairwise a (c - a)

lemma grid_length (a c : Nat) : (grid a c).length = 6 * (c - a) :=
  hours_block_length a (c - a)

lemma grid_head {a c : Nat} (h : a < c) :
    (grid a c).head? = some (mkSlot a 0) := by
  obtain ⟨n, hn⟩ : ∃ n, c - a = n + 1 := ⟨c - a - 1, by omega⟩
  rw [grid, hn, hours_block, List.range'_succ, List.flatMap_cons]
  rfl

lemma grid_eq_nil_iff (a c : Nat) : grid a c = [] ↔ c ≤ a := by
  constructor
  · intro h
    by_contra hc
    have := grid_head (by omega : a < c)
    rw [h] at this
    exact Option.noConfusion this
  · intro h
    have : c - a = 0 := by omega
    rw [grid, this]
    rfl

lemma grid_suffix {a a' c : Nat} (h : a ≤ a') : grid a' c <:+ grid a c := by
  rcases le_or_lt a' c with hc | hc
  · have hr := List.range'_append_1 a (a' - a) (c - a')
    have h1 : a + (a' - a) = a' := by omega
    have h2 : (c - a') + (a' - a) = c - a := by omega
    rw [h1, h2] at hr
    rw [grid, grid, hours_block, hours_block, ← hr, List.flatMap_append]
    exact List.suffix_append _ _
  · have : grid a' c = [] := by rw [grid_eq_nil_iff]; omega
    rw [this]
    exact List.nil_suffix

lemma mem_grid {s : TimeSlot} {a c : Nat} (h : s ∈ grid a c) :
    ∃ hr m, a ≤ hr ∧ hr < c ∧ m ≤ 50 ∧ m % 10 = 0 ∧ s = mkSlot hr m := by
  obtain ⟨hr, m, h1, h2, h3, h4, h5⟩ := mem_hours_block h
  exact ⟨hr, m, h1, by omega, h3, h4, h5⟩

/-! ### Simplification of the no-preference branches -/

lemma start_end_no_pref_today {course : Course} {d : Nat} {now : DateTime}
    (hd : d = now.date) :
    start_end course d "" now = (now.hour + 1, course.closeHour) := by
  simp [start_end, hd]

lemma start_end_no_pref_other {course : Course} {d : Nat} {now : DateTime}
    (hd : d ≠ now.date) :
    start_end course d "" now = (course.openHour, course.closeHour) := by
  simp [start_end, hd]

lemma demo_times_all_today {course : Course} {d : Nat} {now : DateTime}
    (hd : d = now.date) :
    demo_times_all course d "" now =
      grid (max (now.hour + 1) course.openHour) course.closeHour := by
  rw [demo_times_all, start_end_no_pref_today hd]
  simp

lemma demo_times_all_other {course : Course} {d : Nat} {now : DateTime}
    (hd : d ≠ now.date) :
    demo_times_all course d "" now = grid course.openHour course.closeHour := by
  rw [demo_times_all, start_end_no_pref_other hd]
  simp

lemma demo_times_all_pairwise (course : Course) (d : Nat) (pref : String)
    (now : DateTime) :
    (demo_times_all course d pref now).Pairwise
      (fun s t => s.minutesOfDay < t.minutesOfDay) := by
  rw [demo_times_all]
  exact grid_pairwise _ _

lemma mem_demo_times_all {s : TimeSlot} {course : Course} {d : Nat}
    {pref : String} {now : DateTime} (h : s ∈ demo_times_all course d pref now) :
    ∃ k : Nat, s.minutesOfDay = start_minutes course d pref now + 10 * k := by
  rw [demo_times_all] at h
  obtain ⟨hr, m, h1, h2, h3, h4, rfl⟩ := mem_grid h
  refine ⟨6 * (hr - max (start_end course d pref now).1 course.openHour)
    + m / 10, ?_⟩
  rw [start_minutes, minutesOfDay_mkSlot]
  omega

/-! ### Claims -/

/-- C1, counterexample: with the course open 06:00-20:00 and
`reference_now` 11:21 on the query date, rounding 11:21 up to the next
multiple of 10 minutes gives 11:30, but the first generated slot is 12:00,
not 11:30 — the code starts same-day generation at `now.hour + 1` o'clock,
not at the rounded-up reference time. -/
theorem C1_counterexample :
    round_up_to_slot (11 * 60 + 21) 10 = 11 * 60 + 30 ∧
    (generate_demo_times cedarRidge 0 "" ⟨0, 11, 21⟩).head?.map
      TimeSlot.minutesOfDay = some (12 * 60) ∧
    (generate_demo_times cedarRidge 0 "" ⟨0, 11, 21⟩).head?.map
      TimeSlot.minutesOfDay ≠ some (11 * 60 + 30) := by decide

/-- C1, amended: for every same-day availability query with no time
preference, slot generation starts at `max(open_hour, now.hour + 1)`
o'clock — the reference time is rounded up to the next full hour, not to
the next multiple of `slot_interval_minutes`; whenever that starting hour
is before the closing hour, the first generated slot is exactly
`max(open_hour, now.hour + 1):00`. -/
theorem C1_same_day_start (course : Course) (d : Nat) (now : DateTime)
    (hd : d = now.date)
    (hlt : max (now.hour + 1) course.openHour < course.closeHour) :
    (generate_demo_times course d "" now).head?.map TimeSlot.minutesOfDay
      = some (60 * max (now.hour + 1) course.openHour) := by
  rw [generate_demo_times, demo_times_all_today hd]
  have h := grid_head hlt
  cases hg : grid (max (now.hour + 1) course.openHour) course.closeHour with
  | nil => rw [hg] at h; exact absurd h (by simp)
  | cons x t =>
    rw [hg] at h
    simp only [List.head?_cons, Option.some.injEq] at h
    subst h
    simp [minutesOfDay_mkSlot]

/-- C1 witness: the amended start rule at the concrete scenario (course
open 06:00-20:00, reference time 11:21 on the query date). -/
theorem C1_same_day_start_witness :
    (generate_demo_times cedarRidge 0 "" ⟨0, 11, 21⟩).head?.map
      TimeSlot.minutesOfDay = some (60 * max (11 + 1) 6) :=
  C1_same_day_start cedarRidge 0 ⟨0, 11, 21⟩ rfl (by decide)

/-- C2, counterexample: for a non-today query on the configured course
(open 06:00, close 20:00) the generator returns exactly 5 slots because of
the `times[:5]` truncation, not the 61 slots the claimed formula
`⌊(last_tee_time − open_time)/interval⌋ + 1` would give for the spec's
canonical `last_tee_time` 16:00 (the code has no `last_tee_time` at all). -/
theorem C2_counterexample :
    (generate_demo_times cedarRidge 1 "" ⟨0, 11, 21⟩).length = 5 ∧
    (5 : Nat) ≠ (16 * 60 - 6 * 60) / 10 + 1 := by decide

/-- C2, amended: for every course and every non-today query date with no
time preference, the generator returns `min 5 (6 * (close_hour −
open_hour))` slots (the full 10-minute grid over the open hours, truncated
to the first five), strictly increasing in time of day, and starting at
`open_hour:00` when the course has any open hour. -/
theorem C2_not_today (course : Course) (d : Nat) (now : DateTime)
    (hd : d ≠ now.date) (hoc : course.openHour < course.closeHour) :
    (generate_demo_times course d "" now).length
        = min 5 (6 * (course.closeHour - course.openHour)) ∧
    (generate_demo_times course d "" now).Pairwise
        (fun s t => s.minutesOfDay < t.minutesOfDay) ∧
    (generate_demo_times course d "" now).head?.map TimeSlot.minutesOfDay
        = some (60 * course.openHour) := by
  rw [generate_demo_times, demo_times_all_other hd]
  refine ⟨?_, ?_, ?_⟩
  · rw [List.length_take, grid_length]
  · exact List.Pairwise.sublist (List.take_sublist _ _) (grid_pairwise _ _)
  · have h := grid_head hoc
    cases hg : grid course.openHour course.closeHour with
    | nil => rw [hg] at h; exact absurd h (by simp)
    | cons x t =>
      rw [hg] at h
      simp only [List.head?_cons, Option.some.injEq] at h
      subst h
      simp [minutesOfDay_mkSlot]

/-- C2 witness: the amended non-today behaviour at the configured course
and a query date different from the reference date. -/
theorem C2_not_today_witness :
    (generate_demo_times cedarRidge 1 "" ⟨0, 11, 21⟩).length
        = min 5 (6 * (20 - 6)) ∧
    (generate_demo_times cedarRidge 1 "" ⟨0, 11, 21⟩).Pairwise
        (fun s t => s.minutesOfDay < t.minutesOfDay) ∧
    (generate_demo_times cedarRidge 1 "" ⟨0, 11, 21⟩).head?.map
        TimeSlot.minutesOfDay = some (60 * 6) :=
  C2_not_today cedarRidge 1 ⟨0, 11, 21⟩ (by decide) (by decide)

/-- C3, counterexample: a booking request with `party_size` 5 (outside
`[1, 4]`) is accepted with `success = true`; the handler never rejects with
`InvalidPartySize` — it performs no validation at all. -/
theorem C3_counterexample :
    (book_tee_time cedarRidge ⟨0, 9, 0, "Sam", "3195551234", 5⟩
        ⟨0, 8, 0⟩).success = true ∧
    ¬ (1 ≤ (5 : Int) ∧ (5 : Int) ≤ 4) := by decide

/-- C3, amended: the booking handler performs no party-size validation:
every request whose `party_size` lies outside `[1, 4]` is nevertheless
accepted (`success = true`); no `InvalidPartySize` rejection exists in the
code. -/
theorem C3_no_party_size_check (course : Course) (req : BookingRequest)
    (now : DateTime)
    (h : req.number_of_players < 1 ∨ 4 < req.number_of_players) :
    (book_tee_time course req now).success = true := rfl

/-- C3 witness: the amended no-validation behaviour at `party_size` 5. -/
theorem C3_no_party_size_check_witness :
    (book_tee_time cedarRidge ⟨0, 9, 0, "Sam", "3195551234", 5⟩
        ⟨0, 8, 0⟩).success = true :=
  C3_no_party_size_check cedarRidge ⟨0, 9, 0, "Sam", "3195551234", 5⟩
    ⟨0, 8, 0⟩ (Or.inr (by decide))

/-- C4, counterexample: a booking request at 05:50 with the course opening
at 06:00 (outside `[open_time, close_time)`) is accepted with
`success = true`; no `OutsideOperatingHours` rejection exists in the code. -/
theorem C4_counterexample :
    (book_tee_time cedarRidge ⟨0, 5, 50, "Sam", "3195551234", 2⟩
        ⟨0, 8, 0⟩).success = true ∧
    60 * 5 + 50 < 60 * cedarRidge.openHour := by decide

/-- C4, amended: the booking handler performs no operating-hours
validation: every request whose time of day lies outside
`[open_hour:00, close_hour:00)` is nevertheless accepted
(`success = true`). -/
theorem C4_no_hours_check (course : Course) (req : BookingRequest)
    (now : DateTime)
    (h : 60 * req.timeHour + req.timeMinute < 60 * course.openHour ∨
         60 * course.closeHour ≤ 60 * req.timeHour + req.timeMinute) :
    (book_tee_time course req now).success = true := rfl

/-- C4 witness: the amended no-validation behaviour at 05:50 with the
course opening at 06:00. -/
theorem C4_no_hours_check_witness :
    (book_tee_time cedarRidge ⟨0, 5, 50, "Sam", "3195551234", 2⟩
        ⟨0, 8, 0⟩).success = true :=
  C4_no_hours_check cedarRidge ⟨0, 5, 50, "Sam", "3195551234", 2⟩
    ⟨0, 8, 0⟩ (Or.inl (by decide))

/-- C5, counterexample: a same-day booking request at 08:00 with
`reference_now` 11:21 — strictly earlier than 11:21 rounded up to the next
slot boundary (11:30) — is accepted with `success = true`; no
`TimeAlreadyPassed` rejection exists in the code. -/
theorem C5_counterexample :
    (book_tee_time cedarRidge ⟨0, 8, 0, "Sam", "3195551234", 2⟩
        ⟨0, 11, 21⟩).success = true ∧
    (⟨0, 8, 0, "Sam", "3195551234", 2⟩ : BookingRequest).date
        = (⟨0, 11, 21⟩ : DateTime).date ∧
    60 * 8 + 0 < round_up_to_slot (60 * 11 + 21) 10 := by decide

/-- C5, amended: the booking handler performs no time-already-passed
check: every same-day request whose time of day is strictly earlier than
the reference time rounded up to the next slot boundary is nevertheless
accepted (`success = true`); a request for exactly the rounded-up next slot
is likewise accepted, but so is everything else. -/
theorem C5_no_past_time_check (course : Course) (req : BookingRequest)
    (now : DateTime) (hd : req.date = now.date)
    (h : 60 * req.timeHour + req.timeMinute
          < round_up_to_slot (60 * now.hour + now.minute) 10) :
    (book_tee_time course req now).success = true := rfl

/-- C5 witness: the amended no-validation behaviour at the same-day 08:00
request with reference time 11:21. -/
theorem C5_no_past_time_check_witness :
    (book_tee_time cedarRidge ⟨0, 8, 0, "Sam", "3195551234", 2⟩
        ⟨0, 11, 21⟩).success = true :=
  C5_no_past_time_check cedarRidge ⟨0, 8, 0, "Sam", "3195551234", 2⟩
    ⟨0, 11, 21⟩ rfl (by decide)

/-- C6, counterexample: a same-day query at `reference_now` 16:05 on the
configured course (close 20:00) returns five slots starting at 17:00, not
the empty sequence the claim derives from `last_tee_time` 16:00 — the code
has no `last_tee_time` and keeps generating until the closing hour. -/
theorem C6_counterexample :
    (generate_demo_times cedarRidge 0 "" ⟨0, 16, 5⟩).length = 5 ∧
    (generate_demo_times cedarRidge 0 "" ⟨0, 16, 5⟩).head?.map
      TimeSlot.minutesOfDay = some (17 * 60) ∧
    generate_demo_times cedarRidge 0 "" ⟨0, 16, 5⟩ ≠ [] := by decide

/-- C6, amended: a no-preference same-day query returns the empty sequence
exactly when `max(now.hour + 1, open_hour)` has reached the closing hour;
in particular at `reference_now` 16:05 with closing hour 20 the result is
non-empty (five slots starting at 17:00). -/
theorem C6_same_day_empty_iff (course : Course) (d : Nat) (now : DateTime)
    (hd : d = now.date) :
    generate_demo_times course d "" now = [] ↔
      course.closeHour ≤ max (now.hour + 1) course.openHour := by
  rw [generate_demo_times, demo_times_all_today hd, List.take_eq_nil_iff]
  simp [grid_eq_nil_iff]

/-- C6 witness: the emptiness characterization at the 16:05 scenario. -/
theorem C6_same_day_empty_iff_witness :
    (generate_demo_times cedarRidge 0 "" ⟨0, 16, 5⟩ = [] ↔
      20 ≤ max (16 + 1) 6) :=
  C6_same_day_empty_iff cedarRidge 0 ⟨0, 16, 5⟩ rfl

/-- C7, counterexample: on the configured course, advancing the reference
time from 10:00 to 11:30 on the same day does not yield a suffix: at 10:00
the returned (truncated) slots are 11:00-11:40, at 11:30 they are
12:00-12:40, and the latter is not a suffix of the former. -/
theorem C7_counterexample :
    (60 * 10 + 0 < 60 * 11 + 30) ∧
    ¬ (generate_demo_times cedarRidge 0 "" ⟨0, 11, 30⟩ <:+
        generate_demo_times cedarRidge 0 "" ⟨0, 10, 0⟩) := by decide

/-- C7, amended: the monotone-shrink suffix property holds for the
untruncated slot list (the `times` list before `times[:5]`): for reference
times `t0 ≤ t1` on the same query date, the untruncated list at `t1` is a
suffix of the untruncated list at `t0`; the `[:5]` truncation destroys the
property for the returned lists. -/
theorem C7_untruncated_suffix (course : Course) (d : Nat) (t0 t1 : DateTime)
    (h0 : d = t0.date) (h1 : d = t1.date)
    (hm1 : t1.minute < 60)
    (hle : 60 * t0.hour + t0.minute ≤ 60 * t1.hour + t1.minute) :
    demo_times_all course d "" t1 <:+ demo_times_all course d "" t0 := by
  rw [demo_times_all_today h0, demo_times_all_today h1]
  have hh : t0.hour ≤ t1.hour := by omega
  exact grid_suffix (max_le_max (by omega) le_rfl)

/-- C7 witness: the untruncated suffix property at reference times 10:00
and 11:30 on the same date. -/
theorem C7_untruncated_suffix_witness :
    demo_times_all cedarRidge 0 "" ⟨0, 11, 30⟩ <:+
      demo_times_all cedarRidge 0 "" ⟨0, 10, 0⟩ :=
  C7_untruncated_suffix cedarRidge 0 ⟨0, 10, 0⟩ ⟨0, 11, 30⟩ rfl rfl
    (by decide) (by decide)

/-- C8: the 12-hour display formatter agrees with the spec's mapping on
every 24-hour time — hour 0 displays as 12, hours 1-12 unchanged, hours
13-23 as hour minus 12, minutes zero-padded to two digits, suffix AM for
hour < 12 and PM otherwise; in particular 13:30 formats as "1:30 PM",
00:00 as "12:00 AM", and 12:00 as "12:00 PM". -/
theorem C8_format_time (h m : Nat) (hh : h < 24) (hm : m < 60) :
    format_time h m = spec_format_12h h m ∧
    format_time 13 30 = "1:30 PM" ∧
    format_time 0 0 = "12:00 AM" ∧
    format_time 12 0 = "12:00 PM" := by
  refine ⟨?_, by decide, by decide, by decide⟩
  have hdh : (if (if h ≤ 12 then h else h - 12) = 0 then 12
      else if h ≤ 12 then h else h - 12)
      = (if h = 0 then 12 else if h ≤ 12 then h else h - 12) := by
    split_ifs <;> omega
  simp only [format_time, spec_format_12h]
  rw [hdh]

/-- C8 witness: the formatter/spec agreement at 13:30. -/
theorem C8_format_time_witness :
    format_time 13 30 = spec_format_12h 13 30 :=
  (C8_format_time 13 30 (by decide) (by decide)).1

/-- C9: for every query (any course, date, preference and reference time),
the generated slot sequence is strictly increasing in time of day, contains
no duplicates, and every slot's time of day is `start_time + 10k` minutes
for some non-negative `k`, where `start_time` is the first hour the
generation loop visits. -/
theorem C9_slots_invariant (course : Course) (d : Nat) (pref : String)
    (now : DateTime) :
    (generate_demo_times course d pref now).Pairwise
        (fun s t => s.minutesOfDay < t.minutesOfDay) ∧
    (generate_demo_times course d pref now).Nodup ∧
    ∀ s ∈ generate_demo_times course d pref now,
      ∃ k : Nat, s.minutesOfDay = start_minutes course d pref now + 10 * k := by
  have hpw : (generate_demo_times course d pref now).Pairwise
      (fun s t => s.minutesOfDay < t.minutesOfDay) :=
    List.Pairwise.sublist (List.take_sublist _ _)
      (demo_times_all_pairwise course d pref now)
  refine ⟨hpw, ?_, ?_⟩
  · exact hpw.imp (fun hlt heq => by subst heq; exact lt_irrefl _ hlt)
  · intro s hs
    exact mem_demo_times_all ((List.take_sublist _ _).subset hs)

/-- C9 witness: the slot-arithmetic invariant applied to the 06:00 slot of
a non-today query on the configured course. -/
theorem C9_slots_invariant_witness :
    ∃ k : Nat, (mkSlot 6 0).minutesOfDay
      = start_minutes cedarRidge 1 "" ⟨0, 11, 21⟩ + 10 * k :=
  (C9_slots_invariant cedarRidge 1 "" ⟨0, 11, 21⟩).2.2 (mkSlot 6 0) (by decide)

/-- C10: for every course, date, preference and reference time, the
generator returns at most five slots (the `times[:5]` truncation), and the
availability handler's `available_times` field likewise holds at most five
slots. -/
theorem C10_at_most_five (course : Course) (d : Nat) (pref : String)
    (now : DateTime) :
    (generate_demo_times course d pref now).length ≤ 5 ∧
    (check_tee_times course d pref now).available_times.length ≤ 5 := by
  constructor
  · rw [generate_demo_times, List.length_take]
    exact Nat.min_le_left _ _
  · rcases hg : generate_demo_times course d pref now with _ | ⟨a, _ | ⟨b, rest⟩⟩ <;>
      simp [check_tee_times, hg, List.length_take]

end TeeTalk
